import Mathlib

/-!
Verification of the Warbler data-model layer (src/models.py).

The database is embedded shallowly as a `DBState`: four lists of plain
records mirroring the four tables (`users`, `follows`, `likes`,
`messages`).  The SQLAlchemy session operations become pure state
transitions on `DBState`; commit-time constraint enforcement (unique
constraints and foreign keys declared on the tables) is an explicit
`commit` function returning `Except`.  ORM relationship lists
(`following`, `followers`, `likes`) are derived by filtering the edge
tables and resolving foreign keys, exactly as the declared
`db.relationship` joins do.
-/

namespace Warbler

/-- Constant `DEFAULT_IMAGE_URL` from models.py. -/
def DEFAULT_IMAGE_URL : String :=
  "https://icon-library.com/images/default-user-icon/default-user-icon-28.jpg"

/-- Constant `DEFAULT_HEADER_IMAGE_URL` from models.py. -/
def DEFAULT_HEADER_IMAGE_URL : String :=
  "https://images.unsplash.com/photo-1519751138087-5bf79df62d5b"

/-- A row of the `users` table (class `User` in models.py). -/
structure User where
  id : Nat
  email : String
  username : String
  image_url : String
  header_image_url : String
  bio : String
  location : String
  password : String
deriving DecidableEq, Repr

/-- A row of the `follows` table (class `Follow` in models.py): a directed
edge "`user_following_id` follows `user_being_followed_id`".  The two
columns form the composite primary key, and
`UniqueConstraint("user_being_followed_id", "user_following_id")` makes the
ordered pair unique. -/
structure Follow where
  user_being_followed_id : Nat
  user_following_id : Nat
deriving DecidableEq, Repr

/-- A row of the `likes` table (class `Like` in models.py): the composite
primary key `(user_id, message_id)` makes the pair unique. -/
structure Like where
  user_id : Nat
  message_id : Nat
deriving DecidableEq, Repr

/-- A row of the `messages` table (class `Message` in models.py).  The
timestamp is opaque to every property below, so it is a `Nat`. -/
structure Message where
  id : Nat
  text : String
  timestamp : Nat
  user_id : Nat
deriving DecidableEq, Repr

/-- The whole database (equivalently, the flushed session state). -/
structure DBState where
  users : List User
  follows : List Follow
  likes : List Like
  messages : List Message
deriving DecidableEq, Repr

/-! ## Password hashing (flask_bcrypt)

Modelled from the spec: the Password Authenticator (spec section 4.1) is the
external `flask_bcrypt` library, not part of src/.  The model keeps the
properties the spec states and that the data model relies on: the digest
embeds the salt, `check_password_hash` succeeds on the plaintext the digest
was generated from, and the digest is never the plaintext itself.  The
actual one-way function is replaced by a reversible encoding, which is
irrelevant to every claim below (none concerns pre-image resistance). -/

/-- Modelled from the spec: the body of the bcrypt digest, standing in for
the real one-way hash.  Only injectivity-like behaviour matters here. -/
def bcryptEncode (plaintext : String) : String :=
  String.mk plaintext.data.reverse

/-- Modelled from the spec: `bcrypt.generate_password_hash`, with the random
salt made an explicit parameter.  The digest has the bcrypt shape
`$2b$12$<salt>$<body>`. -/
def generate_password_hash (salt : Nat) (plaintext : String) : String :=
  "$2b$12$" ++ toString salt ++ "$" ++ bcryptEncode plaintext

/-- Modelled from the spec: `bcrypt.check_password_hash pw_hash plaintext`
re-derives the digest body from the plaintext and compares it with the body
embedded in `pw_hash`. -/
def check_password_hash (pw_hash : String) (plaintext : String) : Bool :=
  decide ("$2b$12$".data <+: pw_hash.data) &&
  decide (("$" ++ bcryptEncode plaintext).data <:+ pw_hash.data)

/-! ## Identity store operations -/

/-- Method `User.signup` (models.py lines 205-222): hashes the password and adds
the new user to the session.  The database-assigned surrogate id and the
bcrypt salt are explicit parameters (both are chosen outside the code
under consideration).  Returns the updated state and the constructed user,
as the Python method returns the entity. -/
def User.signup (db : DBState) (newId : Nat) (username email password : String)
    (image_url : String) (salt : Nat) : DBState × User :=
  let hashed_pwd := generate_password_hash salt password
  let user : User :=
    { id := newId, email := email, username := username, image_url := image_url,
      header_image_url := DEFAULT_HEADER_IMAGE_URL, bio := "", location := "",
      password := hashed_pwd }
  ({ db with users := db.users ++ [user] }, user)

/-- Result handling of `.scalar_one_or_none()` on a result list: `none` for no rows, the row
for exactly one, and an error (`MultipleResultsFound`) for more than one. -/
def scalar_one_or_none (rows : List α) : Except Unit (Option α) :=
  match rows with
  | [] => Except.ok none
  | [a] => Except.ok (some a)
  | _ => Except.error ()

/-- Method `User.authenticate` (models.py lines 224-244): select the user by
username with `scalar_one_or_none`; if found, verify the password against
the stored hash; return the user on success and `False` otherwise.  The
Python `False` sentinel is `Except.ok none`; the `Except.error` branch is
the `MultipleResultsFound` exception, impossible under the unique
constraint on usernames. -/
def User.authenticate (db : DBState) (username password : String) :
    Except Unit (Option User) :=
  match scalar_one_or_none (db.users.filter (fun u => u.username == username)) with
  | Except.error e => Except.error e
  | Except.ok none => Except.ok none
  | Except.ok (some user) =>
      if check_password_hash user.password password then Except.ok (some user)
      else Except.ok none

/-! ## Follows -/

/-- Method `User.follow` (models.py lines 267-274): adds the edge
`(user_being_followed_id := other_user.id, user_following_id := self.id)`
to the session.  No duplicate or self-follow check happens here; conflicts
surface only at `commit`. -/
def User.follow (db : DBState) (self other_user : User) : DBState :=
  { db with follows := db.follows ++
      [{ user_being_followed_id := other_user.id, user_following_id := self.id }] }

/-- Method `User.unfollow` (models.py lines 276-285): a bulk `DELETE` of every
`follows` row matching both ids; deleting zero rows is not an error. -/
def User.unfollow (db : DBState) (self other_user : User) : DBState :=
  { db with follows := db.follows.filter (fun f =>
      !(f.user_being_followed_id == other_user.id && f.user_following_id == self.id)) }

/-- Resolution of a foreign key `users.id` reference, as the ORM
relationship join does. -/
def lookupUserById (db : DBState) (uid : Nat) : Option User :=
  db.users.find? (fun u => u.id == uid)

/-- Relationship `User.following_users`: the `Follow` rows whose
`user_following_id` is this user (`foreign_keys=[Follow.user_following_id]`). -/
def User.following_users (db : DBState) (self : User) : List Follow :=
  db.follows.filter (fun f => f.user_following_id == self.id)

/-- Relationship `User.followers_users`: the `Follow` rows whose
`user_being_followed_id` is this user. -/
def User.followers_users (db : DBState) (self : User) : List Follow :=
  db.follows.filter (fun f => f.user_being_followed_id == self.id)

/-- Relationship `Follow.following_user`: joins on `user_being_followed_id`,
so despite its name it resolves to the user being followed. -/
def Follow.following_user (db : DBState) (f : Follow) : Option User :=
  lookupUserById db f.user_being_followed_id

/-- Relationship `Follow.followed_user`: joins on `user_following_id`, so
despite its name it resolves to the follower. -/
def Follow.followed_user (db : DBState) (f : Follow) : Option User :=
  lookupUserById db f.user_following_id

/-- The `following` property (models.py lines 189-192):
`[follow.following_user for follow in self.following_users]`. -/
def User.following (db : DBState) (self : User) : List User :=
  (User.following_users db self).filterMap (fun f => Follow.following_user db f)

/-- The `followers` property (models.py lines 194-197):
`[follow.followed_user for follow in self.followers_users]`. -/
def User.followers (db : DBState) (self : User) : List User :=
  (User.followers_users db self).filterMap (fun f => Follow.followed_user db f)

/-- Method `User.is_followed_by` (models.py lines 287-292): filters `followers`
for entries equal to `other_user` and tests that the count is exactly 1. -/
def User.is_followed_by (db : DBState) (self other_user : User) : Bool :=
  ((User.followers db self).filter (fun u => u == other_user)).length == 1

/-- Method `User.is_following` (models.py lines 294-299): filters `following`
for entries equal to `other_user` and tests that the count is exactly 1. -/
def User.is_following (db : DBState) (self other_user : User) : Bool :=
  ((User.following db self).filter (fun u => u == other_user)).length == 1

/-! ## Likes -/

/-- Method `User.like` (models.py lines 304-311): adds the edge
`(user_id := self.id, message_id)` to the session. -/
def User.like (db : DBState) (self : User) (message_id : Nat) : DBState :=
  { db with likes := db.likes ++ [{ user_id := self.id, message_id := message_id }] }

/-- Method `User.unlike` (models.py lines 313-322): bulk `DELETE` of every `likes`
row matching both ids; deleting zero rows is not an error. -/
def User.unlike (db : DBState) (self : User) (message_id : Nat) : DBState :=
  { db with likes := db.likes.filter (fun l =>
      !(l.message_id == message_id && l.user_id == self.id)) }

/-- Relationship `User.liked_messages`: the `Like` rows whose `user_id` is
this user. -/
def User.liked_messages (db : DBState) (self : User) : List Like :=
  db.likes.filter (fun l => l.user_id == self.id)

/-- Relationship `Like.message_the_user_liked`: resolves the
`messages.id` foreign key. -/
def Like.message_the_user_liked (db : DBState) (l : Like) : Option Message :=
  db.messages.find? (fun m => m.id == l.message_id)

/-- The `likes` property (models.py lines 184-187):
`[like.message_the_user_liked for like in self.liked_messages]`. -/
def User.likes (db : DBState) (self : User) : List Message :=
  (User.liked_messages db self).filterMap (fun l => Like.message_the_user_liked db l)

/-- Method `User.is_liked` (models.py lines 324-330): filters the liked messages
by id and tests that the count is exactly 1. -/
def User.is_liked (db : DBState) (self : User) (message_id : Nat) : Bool :=
  ((User.likes db self).filter (fun m => m.id == message_id)).length == 1

/-! ## Commit-time constraint enforcement -/

/-- The constraint that a commit can violate, in the order the checks are
declared on the schema. -/
inductive CommitError where
  | uniqueUsersUsername
  | uniqueUsersEmail
  | uniqueFollowsPair
  | uniqueLikesPair
  | foreignKeyViolation
deriving DecidableEq, Repr

/-- Every declared foreign key resolves: `follows` references `users.id`
twice, `messages.user_id` references `users.id`, and `likes` references
`users.id` and `messages.id`. -/
def foreignKeysOK (db : DBState) : Bool :=
  db.follows.all (fun f =>
    db.users.any (fun u => u.id == f.user_being_followed_id) &&
    db.users.any (fun u => u.id == f.user_following_id)) &&
  db.messages.all (fun m => db.users.any (fun u => u.id == m.user_id)) &&
  db.likes.all (fun l =>
    db.users.any (fun u => u.id == l.user_id) &&
    db.messages.any (fun m => m.id == l.message_id))

/-- Transaction commit: enforces the unique constraints declared in
models.py (`User.username`, `User.email`, the `follows` pair via
`UniqueConstraint` and its composite primary key, the `likes` composite
primary key) and the foreign keys.  Since `Follow` and `Like` records are
exactly their constrained column pairs, pair-uniqueness is `Nodup` of the
row list. -/
def commit (db : DBState) : Except CommitError DBState :=
  if ¬ (db.users.map User.username).Nodup then
    Except.error CommitError.uniqueUsersUsername
  else if ¬ (db.users.map User.email).Nodup then
    Except.error CommitError.uniqueUsersEmail
  else if ¬ db.follows.Nodup then
    Except.error CommitError.uniqueFollowsPair
  else if ¬ db.likes.Nodup then
    Except.error CommitError.uniqueLikesPair
  else if ¬ foreignKeysOK db then
    Except.error CommitError.foreignKeyViolation
  else Except.ok db

/-! ## User deletion with cascades -/

/-- Deletion of the user with id `uid`, with the cascade semantics declared
in models.py: `ondelete="cascade"` on both `follows` foreign keys, on
`messages.user_id`, on `likes.user_id`, and on `likes.message_id` (so a
like of a message that is itself cascade-deleted is deleted too).  The
whole cascade is a single state transition, modelling one transaction. -/
def deleteUser (db : DBState) (uid : Nat) : DBState :=
  { users := db.users.filter (fun u => u.id != uid),
    follows := db.follows.filter (fun f =>
      f.user_being_followed_id != uid && f.user_following_id != uid),
    likes := db.likes.filter (fun l =>
      l.user_id != uid &&
      !(db.messages.any (fun m => m.id == l.message_id && m.user_id == uid))),
    messages := db.messages.filter (fun m => m.user_id != uid) }

/-! ## Message creation -/

/-- The error of the Content Store `create` operation. -/
inductive ContentError where
  | contentTooLong
deriving DecidableEq, Repr

/-- The text length bound, from the `db.String(140)` column declaration on
`Message.text` (models.py lines 344-347). -/
def MESSAGE_TEXT_MAX_LENGTH : Nat := 140

/-- Modelled from the spec: the Content Store `create(user, text)`
operation (spec section 4.4) lives outside src/ — only the `Message` column
declarations are in models.py.  Per the spec it fails with a "content too
long" validation error, before the entity is staged, when the text exceeds
the 140-character column limit; otherwise it stages the new message. -/
def Message.create (db : DBState) (user_id newId timestamp : Nat) (text : String) :
    Except ContentError DBState :=
  if text.length > MESSAGE_TEXT_MAX_LENGTH then Except.error ContentError.contentTooLong
  else Except.ok { db with messages := db.messages ++
    [{ id := newId, text := text, timestamp := timestamp, user_id := user_id }] }

/-! ## Concrete states used as evaluation witnesses -/

/-- An empty database. -/
def emptyDB : DBState := { users := [], follows := [], likes := [], messages := [] }

/-- A concrete user record with id 1. -/
def anaW : User :=
  { id := 1, email := "ana@x.com", username := "ana", image_url := DEFAULT_IMAGE_URL,
    header_image_url := DEFAULT_HEADER_IMAGE_URL, bio := "", location := "",
    password := generate_password_hash 0 "pw" }

/-- A concrete user record with id 2. -/
def boW : User :=
  { id := 2, email := "bo@x.com", username := "bo", image_url := DEFAULT_IMAGE_URL,
    header_image_url := DEFAULT_HEADER_IMAGE_URL, bio := "", location := "",
    password := generate_password_hash 1 "pw2" }

/-- A concrete user record with id 3. -/
def calW : User :=
  { id := 3, email := "cal@x.com", username := "cal", image_url := DEFAULT_IMAGE_URL,
    header_image_url := DEFAULT_HEADER_IMAGE_URL, bio := "", location := "",
    password := generate_password_hash 2 "pw3" }

/-- Two users, no edges. -/
def dbPairW : DBState := { users := [anaW, boW], follows := [], likes := [], messages := [] }

/-- Two users, one follow edge (1 follows 2), one message by user 2 and a
like of it by user 1. -/
def dbEdgesW : DBState :=
  { users := [anaW, boW],
    follows := [{ user_being_followed_id := 2, user_following_id := 1 }],
    likes := [{ user_id := 1, message_id := 7 }],
    messages := [{ id := 7, text := "hi", timestamp := 0, user_id := 2 }] }

/-- Three users with follow edges in several directions, two messages and
likes by and on user 2, to exercise the deletion cascade. -/
def dbCascadeW : DBState :=
  { users := [anaW, boW, calW],
    follows := [{ user_being_followed_id := 2, user_following_id := 1 },
                { user_being_followed_id := 1, user_following_id := 2 },
                { user_being_followed_id := 3, user_following_id := 1 }],
    likes := [{ user_id := 1, message_id := 10 }, { user_id := 2, message_id := 11 },
              { user_id := 3, message_id := 10 }, { user_id := 1, message_id := 11 }],
    messages := [{ id := 10, text := "from bo", timestamp := 0, user_id := 2 },
                 { id := 11, text := "from cal", timestamp := 0, user_id := 3 }] }

/-- Two users with follow edges in both directions and likes of one message
by both, to exercise the deletion frame of unfollow and unlike. -/
def dbFrameW : DBState :=
  { users := [anaW, boW],
    follows := [{ user_being_followed_id := 2, user_following_id := 1 },
                { user_being_followed_id := 1, user_following_id := 2 }],
    likes := [{ user_id := 1, message_id := 7 }, { user_id := 2, message_id := 7 }],
    messages := [] }

/-- A session state holding the same follow edge twice (rejectable at
commit, but constructible in the session). -/
def dbDupEdgeW : DBState :=
  { users := [anaW, boW],
    follows := [{ user_being_followed_id := 2, user_following_id := 1 },
                { user_being_followed_id := 2, user_following_id := 1 }],
    likes := [], messages := [] }

/-- A single user and no edges. -/
def dbSoloW : DBState := { users := [anaW], follows := [], likes := [], messages := [] }

/-! ## Lemmas about the password model -/

/-- Verification succeeds on the digest generated from the same plaintext,
whatever the salt. -/
theorem check_generate (salt : Nat) (pw : String) :
    check_password_hash (generate_password_hash salt pw) pw = true := by
  simp only [check_password_hash, generate_password_hash, Bool.and_eq_true, decide_eq_true_eq]
  constructor
  · simp [String.data_append]
  · have h := List.suffix_append ("$2b$12$".data ++ (toString salt).data)
      ('$' :: (bcryptEncode pw).data)
    simpa [String.data_append] using h

/-- The digest never equals the plaintext: it is strictly longer. -/
theorem generate_ne_plaintext (salt : Nat) (pw : String) :
    generate_password_hash salt pw ≠ pw := by
  intro h
  have hl := congrArg (fun s => s.data.length) h
  simp [generate_password_hash, String.data_append, bcryptEncode] at hl
  omega

/-! ## C1: signup followed by authenticate -/

/-- C1: for every valid (username, email, password) — in particular the
username not yet taken — `User.signup` followed by `User.authenticate`
with the same credentials returns exactly the signed-up user, whose
username and email are the signed-up values and whose stored password
field differs from the plaintext password. -/
theorem signup_then_authenticate (db : DBState) (newId salt : Nat)
    (username email password image_url : String)
    (hFresh : ∀ u ∈ db.users, u.username ≠ username) :
    User.authenticate (User.signup db newId username email password image_url salt).1
        username password =
      Except.ok (some (User.signup db newId username email password image_url salt).2) ∧
    (User.signup db newId username email password image_url salt).2.username = username ∧
    (User.signup db newId username email password image_url salt).2.email = email ∧
    (User.signup db newId username email password image_url salt).2.password ≠ password := by
  refine ⟨?_, rfl, rfl, generate_ne_plaintext salt password⟩
  have hfil : db.users.filter (fun u => u.username == username) = [] := by
    rw [List.filter_eq_nil_iff]
    intro u hu
    simp [hFresh u hu]
  simp [User.authenticate, User.signup, List.filter_append, hfil, scalar_one_or_none,
    check_generate]

/-- Evaluation of C1 on the empty database with concrete credentials. -/
theorem signup_then_authenticate_witness :
    User.authenticate (User.signup emptyDB 1 "ana" "ana@x.com" "secret"
        DEFAULT_IMAGE_URL 0).1 "ana" "secret" =
      Except.ok (some (User.signup emptyDB 1 "ana" "ana@x.com" "secret"
        DEFAULT_IMAGE_URL 0).2) ∧
    (User.signup emptyDB 1 "ana" "ana@x.com" "secret" DEFAULT_IMAGE_URL 0).2.username =
      "ana" ∧
    (User.signup emptyDB 1 "ana" "ana@x.com" "secret" DEFAULT_IMAGE_URL 0).2.email =
      "ana@x.com" ∧
    (User.signup emptyDB 1 "ana" "ana@x.com" "secret" DEFAULT_IMAGE_URL 0).2.password ≠
      "secret" :=
  signup_then_authenticate emptyDB 1 0 "ana" "ana@x.com" "secret" DEFAULT_IMAGE_URL
    (by intro u hu; simp [emptyDB] at hu)

/-! ## C2: authenticate as a partial-correctness if-and-only-if -/

/-- Under a Nodup username column, the filter by username is empty or a
singleton. -/
theorem filter_username_nodup (users : List User) (username : String)
    (hnd : (users.map User.username).Nodup) :
    users.filter (fun u => u.username == username) = [] ∨
    ∃ w, users.filter (fun u => u.username == username) = [w] := by
  induction users with
  | nil => exact Or.inl rfl
  | cons a l ih =>
    simp only [List.map_cons, List.nodup_cons] at hnd
    by_cases ha : a.username = username
    · refine Or.inr ⟨a, ?_⟩
      rw [List.filter_cons_of_pos (by simp [ha])]
      have hnil : l.filter (fun u => u.username == username) = [] := by
        rw [List.filter_eq_nil_iff]
        intro u hu
        simp only [beq_iff_eq]
        intro h
        exact hnd.1 (by rw [ha, ← h]; exact List.mem_map_of_mem User.username hu)
      rw [hnil]
    · rw [List.filter_cons_of_neg (by simp [ha])]
      exact ih hnd.2

/-- Authentication against a state with no user of that username. -/
theorem authenticate_of_filter_nil (db : DBState) (username password : String)
    (hf : db.users.filter (fun u => u.username == username) = []) :
    User.authenticate db username password = Except.ok none := by
  rw [User.authenticate, hf]
  rfl

/-- Authentication against a state with exactly one user of that username. -/
theorem authenticate_of_filter_single (db : DBState) (username password : String)
    (w : User) (hf : db.users.filter (fun u => u.username == username) = [w]) :
    User.authenticate db username password =
      if check_password_hash w.password password then Except.ok (some w)
      else Except.ok none := by
  rw [User.authenticate, hf]
  simp [scalar_one_or_none]

/-- C2: under the unique constraint on usernames, `User.authenticate`
returns a user exactly when that user is stored under the requested
username and the password verifies against the stored hash; in every other
case — unknown username or wrong password alike — it returns one and the
same sentinel `Except.ok none` (the Python `False`), so the two failure
causes are indistinguishable. -/
theorem authenticate_spec (db : DBState) (username password : String)
    (hnd : (db.users.map User.username).Nodup) :
    (∀ u : User, User.authenticate db username password = Except.ok (some u) ↔
        u ∈ db.users ∧ u.username = username ∧
        check_password_hash u.password password = true) ∧
    ((¬ ∃ u, u ∈ db.users ∧ u.username = username ∧
        check_password_hash u.password password = true) →
      User.authenticate db username password = Except.ok none) := by
  rcases filter_username_nodup db.users username hnd with hf | ⟨w, hf⟩
  · have hmem : ∀ u : User, u ∈ db.users → u.username ≠ username := by
      intro u hu h
      have hin : u ∈ db.users.filter (fun u => u.username == username) := by
        simp [List.mem_filter, hu, h]
      rw [hf] at hin
      exact absurd hin (List.not_mem_nil u)
    constructor
    · intro u
      constructor
      · intro h
        rw [authenticate_of_filter_nil db username password hf] at h
        exact absurd h (by simp)
      · rintro ⟨hu, hname, _⟩
        exact absurd hname (hmem u hu)
    · intro _
      exact authenticate_of_filter_nil db username password hf
  · have hw : w ∈ db.users ∧ w.username = username := by
      have hin : w ∈ db.users.filter (fun u => u.username == username) := by
        rw [hf]; exact List.mem_singleton.mpr rfl
      simpa [List.mem_filter] using hin
    have heq := authenticate_of_filter_single db username password w hf
    constructor
    · intro u
      constructor
      · intro h
        rw [heq] at h
        by_cases hc : check_password_hash w.password password = true
        · rw [if_pos hc] at h
          have : w = u := by simpa using h
          subst this
          exact ⟨hw.1, hw.2, hc⟩
        · rw [if_neg hc] at h
          exact absurd h (by simp)
      · rintro ⟨hu, hname, hcheck⟩
        have : u ∈ db.users.filter (fun u => u.username == username) := by
          simp [List.mem_filter, hu, hname]
        rw [hf] at this
        have : u = w := List.mem_singleton.mp this
        subst this
        rw [heq, if_pos hcheck]
    · intro hno
      rw [heq]
      by_cases hc : check_password_hash w.password password = true
      · exact absurd ⟨w, hw.1, hw.2, hc⟩ hno
      · rw [if_neg hc]

/-- Evaluation of C2: with one stored user, a wrong password yields the
`Except.ok none` sentinel. -/
theorem authenticate_spec_witness :
    User.authenticate dbSoloW "ana" "wrong" = Except.ok none :=
  (authenticate_spec dbSoloW "ana" "wrong" (by decide)).2
    (by
      rintro ⟨u, hu, -, hch⟩
      have hua : u = anaW := by simpa [dbSoloW] using hu
      subst hua
      exact absurd hch (by decide))
/-! ## C3: follow then unfollow, observed through the membership checks -/

/-- Under a Nodup id column, `find?` by a member's id returns that member. -/
theorem find_id_of_nodup (l : List User) (u : User) (h : u ∈ l)
    (hnd : (l.map User.id).Nodup) :
    l.find? (fun v => v.id == u.id) = some u := by
  induction l with
  | nil => exact absurd h (List.not_mem_nil u)
  | cons a t ih =>
    simp only [List.map_cons, List.nodup_cons] at hnd
    by_cases ha : a.id = u.id
    · rw [List.find?_cons_of_pos _ (by simp [ha])]
      rcases List.mem_cons.mp h with rfl | hmem
      · rfl
      · exact absurd (by rw [ha]; exact List.mem_map_of_mem User.id hmem) hnd.1
    · rw [List.find?_cons_of_neg _ (by simp [ha])]
      rcases List.mem_cons.mp h with rfl | hmem
      · exact absurd rfl ha
      · exact ih hmem hnd.2

/-- A successful foreign-key resolution returns a stored user with the
requested id. -/
theorem lookupUserById_mem (db : DBState) (uid : Nat) (u : User)
    (h : lookupUserById db uid = some u) : u ∈ db.users ∧ u.id = uid := by
  unfold lookupUserById at h
  refine ⟨List.mem_of_find?_eq_some h, ?_⟩
  have := List.find?_some h
  simpa using this

/-- Membership in the derived `following` list, unfolded to the underlying
edge table and foreign-key resolution. -/
theorem mem_following_iff (db : DBState) (self u : User) :
    u ∈ User.following db self ↔
    ∃ f, f ∈ db.follows ∧ f.user_following_id = self.id ∧
      lookupUserById db f.user_being_followed_id = some u := by
  simp only [User.following, User.following_users, Follow.following_user,
    List.mem_filterMap, List.mem_filter, beq_iff_eq]
  constructor
  · rintro ⟨f, ⟨hf, hfl⟩, hres⟩
    exact ⟨f, hf, hfl, hres⟩
  · rintro ⟨f, hf, hfl, hres⟩
    exact ⟨f, ⟨hf, hfl⟩, hres⟩

/-- Membership in the derived `followers` list, unfolded to the underlying
edge table and foreign-key resolution. -/
theorem mem_followers_iff (db : DBState) (self u : User) :
    u ∈ User.followers db self ↔
    ∃ f, f ∈ db.follows ∧ f.user_being_followed_id = self.id ∧
      lookupUserById db f.user_following_id = some u := by
  simp only [User.followers, User.followers_users, Follow.followed_user,
    List.mem_filterMap, List.mem_filter, beq_iff_eq]
  constructor
  · rintro ⟨f, ⟨hf, hfl⟩, hres⟩
    exact ⟨f, hf, hfl, hres⟩
  · rintro ⟨f, hf, hfl, hres⟩
    exact ⟨f, ⟨hf, hfl⟩, hres⟩

/-- C3: for stored users A ≠ B (unique ids, edge not already present),
after `A.follow(B)` both `A.is_following(B)` and `B.is_followed_by(A)` are
true, and after the subsequent `A.unfollow(B)` both are false. -/
theorem follow_then_unfollow_checks (db : DBState) (A B : User)
    (hA : A ∈ db.users) (hB : B ∈ db.users)
    (hIds : (db.users.map User.id).Nodup)
    (hAB : A ≠ B)
    (hFresh : ({ user_being_followed_id := B.id, user_following_id := A.id } : Follow)
      ∉ db.follows) :
    User.is_following (User.follow db A B) A B = true ∧
    User.is_followed_by (User.follow db A B) B A = true ∧
    User.is_following (User.unfollow (User.follow db A B) A B) A B = false ∧
    User.is_followed_by (User.unfollow (User.follow db A B) A B) B A = false := by
  have hresB : lookupUserById db B.id = some B := find_id_of_nodup db.users B hB hIds
  have hresA : lookupUserById db A.id = some A := find_id_of_nodup db.users A hA hIds
  have hnil1 : (User.following db A).filter (fun u => u == B) = [] := by
    rw [List.filter_eq_nil_iff]
    intro u hu
    simp only [beq_iff_eq]
    intro h
    subst h
    rcases (mem_following_iff db A u).mp hu with ⟨f, hf, hfl, hres⟩
    have hid := (lookupUserById_mem db _ u hres).2
    have : f = { user_being_followed_id := u.id, user_following_id := A.id } := by
      cases f
      simp_all
    rw [this] at hf
    exact hFresh hf
  have hnil2 : (User.followers db B).filter (fun u => u == A) = [] := by
    rw [List.filter_eq_nil_iff]
    intro u hu
    simp only [beq_iff_eq]
    intro h
    subst h
    rcases (mem_followers_iff db B u).mp hu with ⟨f, hf, hfl, hres⟩
    have hid := (lookupUserById_mem db _ u hres).2
    have : f = { user_being_followed_id := B.id, user_following_id := u.id } := by
      cases f
      simp_all
    rw [this] at hf
    exact hFresh hf
  have hresB' := hresB
  have hresA' := hresA
  simp only [lookupUserById] at hresB' hresA'
  have happ1 : User.following (User.follow db A B) A = User.following db A ++ [B] := by
    simp [User.following, User.following_users, User.follow, Follow.following_user,
      lookupUserById, List.filter_append, List.filterMap_append, hresB']
  have happ2 : User.followers (User.follow db A B) B = User.followers db B ++ [A] := by
    simp [User.followers, User.followers_users, User.follow, Follow.followed_user,
      lookupUserById, List.filter_append, List.filterMap_append, hresA']
  refine ⟨?_, ?_, ?_, ?_⟩
  · rw [User.is_following, happ1, List.filter_append, hnil1]
    simp
  · rw [User.is_followed_by, happ2, List.filter_append, hnil2]
    simp
  · rw [User.is_following]
    have hnil3 : (User.following (User.unfollow (User.follow db A B) A B) A).filter
        (fun u => u == B) = [] := by
      rw [List.filter_eq_nil_iff]
      intro u hu
      simp only [beq_iff_eq]
      intro h
      subst h
      rcases (mem_following_iff _ A u).mp hu with ⟨f, hf, hfl, hres⟩
      have hid := (lookupUserById_mem _ _ u hres).2
      rw [User.unfollow] at hf
      simp only [List.mem_filter] at hf
      rcases hf with ⟨-, hpred⟩
      have : f = { user_being_followed_id := u.id, user_following_id := A.id } := by
        cases f
        simp_all
      rw [this] at hpred
      simp at hpred
    rw [hnil3]
    simp
  · rw [User.is_followed_by]
    have hnil4 : (User.followers (User.unfollow (User.follow db A B) A B) B).filter
        (fun u => u == A) = [] := by
      rw [List.filter_eq_nil_iff]
      intro u hu
      simp only [beq_iff_eq]
      intro h
      subst h
      rcases (mem_followers_iff _ B u).mp hu with ⟨f, hf, hfl, hres⟩
      have hid := (lookupUserById_mem _ _ u hres).2
      rw [User.unfollow] at hf
      simp only [List.mem_filter] at hf
      rcases hf with ⟨-, hpred⟩
      have : f = { user_being_followed_id := B.id, user_following_id := u.id } := by
        cases f
        simp_all
      rw [this] at hpred
      simp at hpred
    rw [hnil4]
    simp

/-- Evaluation of C3 on two concrete users with no prior edge. -/
theorem follow_then_unfollow_checks_witness :
    User.is_following (User.follow dbPairW anaW boW) anaW boW = true ∧
    User.is_followed_by (User.follow dbPairW anaW boW) boW anaW = true ∧
    User.is_following (User.unfollow (User.follow dbPairW anaW boW) anaW boW)
      anaW boW = false ∧
    User.is_followed_by (User.unfollow (User.follow dbPairW anaW boW) anaW boW)
      boW anaW = false :=
  follow_then_unfollow_checks dbPairW anaW boW (by decide) (by decide) (by decide)
    (by decide) (by decide)
/-! ## C4: message text length validation -/

/-- C4: creating a message fails with the "content too long" error — the
state is not extended — exactly when the text exceeds 140 characters;
text of at most 140 characters (in particular exactly 140) is staged. -/
theorem message_create_length_spec (db : DBState) (uid newId ts : Nat) (text : String) :
    (text.length > 140 → Message.create db uid newId ts text =
      Except.error ContentError.contentTooLong) ∧
    (text.length ≤ 140 → Message.create db uid newId ts text =
      Except.ok { db with messages := db.messages ++
        [{ id := newId, text := text, timestamp := ts, user_id := uid }] }) := by
  constructor
  · intro h
    rw [Message.create, if_pos (by simpa [MESSAGE_TEXT_MAX_LENGTH] using h)]
  · intro h
    rw [Message.create, if_neg (by simp only [MESSAGE_TEXT_MAX_LENGTH]; omega)]

set_option maxRecDepth 4096 in
/-- Evaluation of C4 at text lengths 141 and 140. -/
theorem message_create_length_witness :
    Message.create emptyDB 1 1 0 (String.mk (List.replicate 141 'a')) =
      Except.error ContentError.contentTooLong ∧
    Message.create emptyDB 1 1 0 (String.mk (List.replicate 140 'a')) =
      Except.ok { emptyDB with messages := emptyDB.messages ++
        [{ id := 1, text := String.mk (List.replicate 140 'a'), timestamp := 0,
           user_id := 1 }] } :=
  ⟨(message_create_length_spec emptyDB 1 1 0 (String.mk (List.replicate 141 'a'))).1
      (by decide),
   (message_create_length_spec emptyDB 1 1 0 (String.mk (List.replicate 140 'a'))).2
      (by decide)⟩

/-! ## C5: duplicate edges fail at commit -/

/-- Appending an element already present breaks Nodup. -/
theorem not_nodup_append_of_mem {α : Type} (l : List α) (e : α) (he : e ∈ l) :
    ¬ (l ++ [e]).Nodup := by
  intro h
  rw [List.nodup_append] at h
  exact h.2.2 he (List.mem_singleton.mpr rfl)

/-- C5: on a state already holding the follow edge (B, A), a second
`A.follow(B)` makes `commit` fail with the follows-pair uniqueness
violation, and likewise a second like of the same message fails with the
likes-pair uniqueness violation. -/
theorem duplicate_edge_commit_fails (db : DBState) (A B liker : User) (mid : Nat)
    (hU : (db.users.map User.username).Nodup)
    (hE : (db.users.map User.email).Nodup)
    (hF : db.follows.Nodup)
    (hEdge : ({ user_being_followed_id := B.id, user_following_id := A.id } : Follow)
      ∈ db.follows)
    (hLikeEdge : ({ user_id := liker.id, message_id := mid } : Like) ∈ db.likes) :
    commit (User.follow db A B) = Except.error CommitError.uniqueFollowsPair ∧
    commit (User.like db liker mid) = Except.error CommitError.uniqueLikesPair := by
  have hdup := not_nodup_append_of_mem db.follows _ hEdge
  have hdup2 := not_nodup_append_of_mem db.likes _ hLikeEdge
  constructor
  · simp [commit, User.follow, hU, hE, hdup]
  · simp [commit, User.like, hU, hE, hF, hdup2]

/-- Evaluation of C5 on a state with an existing follow edge and an
existing like. -/
theorem duplicate_edge_commit_fails_witness :
    commit (User.follow dbEdgesW anaW boW) =
      Except.error CommitError.uniqueFollowsPair ∧
    commit (User.like dbEdgesW anaW 7) =
      Except.error CommitError.uniqueLikesPair :=
  duplicate_edge_commit_fails dbEdgesW anaW boW anaW 7 (by decide) (by decide)
    (by decide) (by decide) (by decide)

/-! ## C6: unfollow and unlike are no-ops on an absent edge -/

/-- C6: when the addressed edge is absent, `unfollow` (resp. `unlike`)
leaves the state exactly unchanged and raises nothing; moreover both are
idempotent on every state, so calling either twice equals calling it
once. -/
theorem unfollow_unlike_absent_noop (db : DBState) (A B liker : User) (mid : Nat)
    (hNoEdge : ({ user_being_followed_id := B.id, user_following_id := A.id } : Follow)
      ∉ db.follows)
    (hNoLike : ({ user_id := liker.id, message_id := mid } : Like) ∉ db.likes) :
    User.unfollow db A B = db ∧ User.unlike db liker mid = db ∧
    (∀ (db' : DBState) (X Y : User),
      User.unfollow (User.unfollow db' X Y) X Y = User.unfollow db' X Y) ∧
    (∀ (db' : DBState) (X : User) (m : Nat),
      User.unlike (User.unlike db' X m) X m = User.unlike db' X m) := by
  refine ⟨?_, ?_, ?_, ?_⟩
  · rw [User.unfollow]
    have hself : db.follows.filter (fun f =>
        !(f.user_being_followed_id == B.id && f.user_following_id == A.id)) =
        db.follows := by
      rw [List.filter_eq_self]
      intro f hf
      by_contra hcon
      simp only [Bool.not_eq_true, Bool.not_eq_false, Bool.and_eq_true, beq_iff_eq] at hcon
      have : f = { user_being_followed_id := B.id, user_following_id := A.id } := by
        cases f
        simp_all
      rw [this] at hf
      exact hNoEdge hf
    rw [hself]
  · rw [User.unlike]
    have hself : db.likes.filter (fun l =>
        !(l.message_id == mid && l.user_id == liker.id)) = db.likes := by
      rw [List.filter_eq_self]
      intro l hl
      by_contra hcon
      simp only [Bool.not_eq_true, Bool.not_eq_false, Bool.and_eq_true, beq_iff_eq] at hcon
      have : l = { user_id := liker.id, message_id := mid } := by
        cases l
        simp_all
      rw [this] at hl
      exact hNoLike hl
    rw [hself]
  · intro db' X Y
    simp [User.unfollow, List.filter_filter]
  · intro db' X m
    simp [User.unlike, List.filter_filter]

/-- Evaluation of C6 on a state with no edges at all. -/
theorem unfollow_unlike_absent_noop_witness :
    User.unfollow dbPairW anaW boW = dbPairW ∧
    User.unlike dbPairW anaW 7 = dbPairW ∧
    User.unfollow (User.unfollow dbPairW anaW boW) anaW boW =
      User.unfollow dbPairW anaW boW ∧
    User.unlike (User.unlike dbPairW anaW 7) anaW 7 =
      User.unlike dbPairW anaW 7 :=
  ⟨(unfollow_unlike_absent_noop dbPairW anaW boW anaW 7 (by decide) (by decide)).1,
   (unfollow_unlike_absent_noop dbPairW anaW boW anaW 7 (by decide) (by decide)).2.1,
   (unfollow_unlike_absent_noop dbPairW anaW boW anaW 7 (by decide)
      (by decide)).2.2.1 dbPairW anaW boW,
   (unfollow_unlike_absent_noop dbPairW anaW boW anaW 7 (by decide)
      (by decide)).2.2.2 dbPairW anaW 7⟩
/-! ## C7: user deletion cascades -/

/-- C7: deleting user B removes, in one transition, exactly B's user row,
every follow edge with B on either side, every message owned by B, every
like by B, and every like of a message owned by B (the like cascade of the
deleted messages); every other user, follow, message and like survives
unchanged. -/
theorem deleteUser_cascade_frame (db : DBState) (bid : Nat) :
    (∀ f, f ∈ (deleteUser db bid).follows ↔
        f ∈ db.follows ∧ f.user_being_followed_id ≠ bid ∧ f.user_following_id ≠ bid) ∧
    (∀ m, m ∈ (deleteUser db bid).messages ↔ m ∈ db.messages ∧ m.user_id ≠ bid) ∧
    (∀ u, u ∈ (deleteUser db bid).users ↔ u ∈ db.users ∧ u.id ≠ bid) ∧
    (∀ l, l ∈ (deleteUser db bid).likes ↔
        l ∈ db.likes ∧ l.user_id ≠ bid ∧
        ∀ m, m ∈ db.messages → m.id = l.message_id → m.user_id ≠ bid) := by
  refine ⟨?_, ?_, ?_, ?_⟩
  · intro f
    simp [deleteUser, List.mem_filter, and_assoc]
  · intro m
    simp [deleteUser, List.mem_filter]
  · intro u
    simp [deleteUser, List.mem_filter]
  · intro l
    simp [deleteUser, List.mem_filter, List.any_eq_true, and_assoc]

/-- Evaluation of C7: deleting user 2 from the concrete cascade state
removes exactly the dependent rows (including the like of user 3 on user
2's message, via the message cascade) and keeps the rest. -/
theorem deleteUser_cascade_frame_witness :
    ({ user_being_followed_id := 3, user_following_id := 1 } : Follow)
      ∈ (deleteUser dbCascadeW 2).follows ∧
    ({ user_being_followed_id := 2, user_following_id := 1 } : Follow)
      ∉ (deleteUser dbCascadeW 2).follows ∧
    ({ id := 11, text := "from cal", timestamp := 0, user_id := 3 } : Message)
      ∈ (deleteUser dbCascadeW 2).messages ∧
    ({ id := 10, text := "from bo", timestamp := 0, user_id := 2 } : Message)
      ∉ (deleteUser dbCascadeW 2).messages ∧
    calW ∈ (deleteUser dbCascadeW 2).users ∧
    boW ∉ (deleteUser dbCascadeW 2).users ∧
    ({ user_id := 1, message_id := 11 } : Like) ∈ (deleteUser dbCascadeW 2).likes ∧
    ({ user_id := 2, message_id := 11 } : Like) ∉ (deleteUser dbCascadeW 2).likes ∧
    ({ user_id := 3, message_id := 10 } : Like) ∉ (deleteUser dbCascadeW 2).likes :=
  ⟨((deleteUser_cascade_frame dbCascadeW 2).1
      { user_being_followed_id := 3, user_following_id := 1 }).mpr
      ⟨by decide, by decide, by decide⟩,
   fun h => (((deleteUser_cascade_frame dbCascadeW 2).1
      { user_being_followed_id := 2, user_following_id := 1 }).mp h).2.1 (by decide),
   ((deleteUser_cascade_frame dbCascadeW 2).2.1
      { id := 11, text := "from cal", timestamp := 0, user_id := 3 }).mpr
      ⟨by decide, by decide⟩,
   fun h => (((deleteUser_cascade_frame dbCascadeW 2).2.1
      { id := 10, text := "from bo", timestamp := 0, user_id := 2 }).mp h).2 (by decide),
   ((deleteUser_cascade_frame dbCascadeW 2).2.2.1 calW).mpr ⟨by decide, by decide⟩,
   fun h => (((deleteUser_cascade_frame dbCascadeW 2).2.2.1 boW).mp h).2 (by decide),
   ((deleteUser_cascade_frame dbCascadeW 2).2.2.2
      { user_id := 1, message_id := 11 }).mpr ⟨by decide, by decide, by decide⟩,
   fun h => (((deleteUser_cascade_frame dbCascadeW 2).2.2.2
      { user_id := 2, message_id := 11 }).mp h).2.1 (by decide),
   fun h => (((deleteUser_cascade_frame dbCascadeW 2).2.2.2
      { user_id := 3, message_id := 10 }).mp h).2.2
      { id := 10, text := "from bo", timestamp := 0, user_id := 2 }
      (by decide) (by decide) (by decide)⟩

/-! ## C8: self-follow is not rejected at the storage level -/

/-- A commit succeeds exactly when every constraint check passes. -/
theorem commit_eq_ok (db : DBState)
    (h1 : (db.users.map User.username).Nodup) (h2 : (db.users.map User.email).Nodup)
    (h3 : db.follows.Nodup) (h4 : db.likes.Nodup) (h5 : foreignKeysOK db = true) :
    commit db = Except.ok db := by
  rw [commit, if_neg (not_not_intro h1), if_neg (not_not_intro h2),
    if_neg (not_not_intro h3), if_neg (not_not_intro h4), if_neg (not_not_intro h5)]

/-- C8: for a stored user A on a valid state with no prior self-edge,
`A.follow(A)` stages an edge whose two ids are equal, and `commit` accepts
it: neither the pair-uniqueness constraint nor any other check rejects a
self-follow. -/
theorem self_follow_allowed (db : DBState) (A : User)
    (hA : A ∈ db.users)
    (hU : (db.users.map User.username).Nodup)
    (hE : (db.users.map User.email).Nodup)
    (hF : db.follows.Nodup)
    (hL : db.likes.Nodup)
    (hFK : foreignKeysOK db = true)
    (hFresh : ({ user_being_followed_id := A.id, user_following_id := A.id } : Follow)
      ∉ db.follows) :
    ({ user_being_followed_id := A.id, user_following_id := A.id } : Follow)
      ∈ (User.follow db A A).follows ∧
    commit (User.follow db A A) = Except.ok (User.follow db A A) := by
  have hnodup : (db.follows ++
      [({ user_being_followed_id := A.id, user_following_id := A.id } : Follow)]).Nodup := by
    rw [List.nodup_append]
    refine ⟨hF, List.nodup_singleton _, ?_⟩
    intro a ha hae
    rw [List.mem_singleton] at hae
    subst hae
    exact hFresh ha
  have hAin : db.users.any (fun u => u.id == A.id) = true := by
    rw [List.any_eq_true]
    exact ⟨A, hA, by simp⟩
  have hFKnew : foreignKeysOK (User.follow db A A) = true := by
    simp only [foreignKeysOK, Bool.and_eq_true] at hFK
    simp only [foreignKeysOK, User.follow, Bool.and_eq_true, List.all_append,
      List.all_cons, List.all_nil, Bool.and_true]
    exact ⟨⟨⟨hFK.1.1, ⟨hAin, hAin⟩⟩, hFK.1.2⟩, hFK.2⟩
  constructor
  · simp [User.follow]
  · exact commit_eq_ok (User.follow db A A) hU hE hnodup hL hFKnew

/-- Evaluation of C8 with a single concrete user following themself. -/
theorem self_follow_allowed_witness :
    ({ user_being_followed_id := 1, user_following_id := 1 } : Follow)
      ∈ (User.follow dbSoloW anaW anaW).follows ∧
    commit (User.follow dbSoloW anaW anaW) = Except.ok (User.follow dbSoloW anaW anaW) :=
  self_follow_allowed dbSoloW anaW (by decide) (by decide) (by decide) (by decide)
    (by decide) (by decide) (by decide)

/-! ## C9: unfollow and unlike remove only the addressed edge -/

/-- C9: `A.unfollow(B)` keeps exactly the follow rows not matching both
ids and leaves users, messages and likes untouched; `unlike` keeps exactly
the like rows not matching both ids and leaves users, messages and follows
untouched. -/
theorem unfollow_unlike_only_matching (db : DBState) (A B liker : User) (mid : Nat) :
    (∀ f, f ∈ (User.unfollow db A B).follows ↔
        f ∈ db.follows ∧
        ¬(f.user_being_followed_id = B.id ∧ f.user_following_id = A.id)) ∧
    (User.unfollow db A B).users = db.users ∧
    (User.unfollow db A B).messages = db.messages ∧
    (User.unfollow db A B).likes = db.likes ∧
    (∀ l, l ∈ (User.unlike db liker mid).likes ↔
        l ∈ db.likes ∧ ¬(l.user_id = liker.id ∧ l.message_id = mid)) ∧
    (User.unlike db liker mid).users = db.users ∧
    (User.unlike db liker mid).messages = db.messages ∧
    (User.unlike db liker mid).follows = db.follows := by
  refine ⟨?_, rfl, rfl, rfl, ?_, rfl, rfl, rfl⟩
  · intro f
    simp [User.unfollow, List.mem_filter]
    tauto
  · intro l
    simp [User.unlike, List.mem_filter]
    tauto

/-- Evaluation of C9 on the concrete two-user state with edges in both
directions: only the addressed edge goes away and the other tables are
untouched. -/
theorem unfollow_unlike_only_matching_witness :
    ({ user_being_followed_id := 1, user_following_id := 2 } : Follow)
      ∈ (User.unfollow dbFrameW anaW boW).follows ∧
    ({ user_being_followed_id := 2, user_following_id := 1 } : Follow)
      ∉ (User.unfollow dbFrameW anaW boW).follows ∧
    (User.unfollow dbFrameW anaW boW).likes = dbFrameW.likes ∧
    ({ user_id := 2, message_id := 7 } : Like)
      ∈ (User.unlike dbFrameW anaW 7).likes ∧
    ({ user_id := 1, message_id := 7 } : Like)
      ∉ (User.unlike dbFrameW anaW 7).likes ∧
    (User.unlike dbFrameW anaW 7).follows = dbFrameW.follows :=
  ⟨((unfollow_unlike_only_matching dbFrameW anaW boW anaW 7).1
      { user_being_followed_id := 1, user_following_id := 2 }).mpr
      ⟨by decide, by decide⟩,
   fun h => (((unfollow_unlike_only_matching dbFrameW anaW boW anaW 7).1
      { user_being_followed_id := 2, user_following_id := 1 }).mp h).2
      ⟨by decide, by decide⟩,
   (unfollow_unlike_only_matching dbFrameW anaW boW anaW 7).2.2.2.1,
   ((unfollow_unlike_only_matching dbFrameW anaW boW anaW 7).2.2.2.2.1
      { user_id := 2, message_id := 7 }).mpr ⟨by decide, by decide⟩,
   fun h => (((unfollow_unlike_only_matching dbFrameW anaW boW anaW 7).2.2.2.2.1
      { user_id := 1, message_id := 7 }).mp h).2 ⟨by decide, by decide⟩,
   (unfollow_unlike_only_matching dbFrameW anaW boW anaW 7).2.2.2.2.2.2.2⟩

/-! ## C10: the membership checks test for exactly one matching entry -/

/-- C10: `is_following`, `is_followed_by` and `is_liked` return true
exactly when the count of matching entries in the derived list is one;
a count of zero, and equally a count above one, yields false. -/
theorem membership_checks_count (db : DBState) (self other : User) (mid : Nat) :
    (User.is_following db self other = true ↔
      ((User.following db self).filter (fun u => u == other)).length = 1) ∧
    (((User.following db self).filter (fun u => u == other)).length ≠ 1 →
      User.is_following db self other = false) ∧
    (User.is_followed_by db self other = true ↔
      ((User.followers db self).filter (fun u => u == other)).length = 1) ∧
    (((User.followers db self).filter (fun u => u == other)).length ≠ 1 →
      User.is_followed_by db self other = false) ∧
    (User.is_liked db self mid = true ↔
      ((User.likes db self).filter (fun m => m.id == mid)).length = 1) ∧
    (((User.likes db self).filter (fun m => m.id == mid)).length ≠ 1 →
      User.is_liked db self mid = false) := by
  refine ⟨?_, ?_, ?_, ?_, ?_, ?_⟩ <;>
    simp [User.is_following, User.is_followed_by, User.is_liked]

/-- Evaluation of C10: a single matching edge gives true; a duplicated
edge (count two) gives false for both direction checks, and an absent like
(count zero) gives false. -/
theorem membership_checks_count_witness :
    User.is_following dbEdgesW anaW boW = true ∧
    User.is_following dbDupEdgeW anaW boW = false ∧
    User.is_followed_by dbDupEdgeW boW anaW = false ∧
    User.is_liked dbDupEdgeW anaW 9 = false :=
  ⟨(membership_checks_count dbEdgesW anaW boW 7).1.mpr (by decide),
   (membership_checks_count dbDupEdgeW anaW boW 7).2.1 (by decide),
   (membership_checks_count dbDupEdgeW boW anaW 7).2.2.2.1 (by decide),
   (membership_checks_count dbDupEdgeW anaW boW 9).2.2.2.2.2 (by decide)⟩

end Warbler
